import Mathlib

/-!
Shallow embedding of `src/nyra_bot.py`, a small Discord chat bot with three
command handlers (`wisdom`, `welcome`, `help`), a fixed command prefix
string `lunaria!`, and a startup call `bot.run()` with no token argument.

Modelling decisions:
* A Discord user is a record with a numeric id and a name; the platform
  mention string `member.mention` renders as `<@id>`.
* A command context carries the invoking author (`ctx.author`).
* `discord.Embed` is a record of optional title / description / color,
  an ordered field list (`add_field` appends) and an optional footer.
* A handler's observable behaviour is the list of outbound sends it
  performs (`ctx.send(...)`); plain-text and embed payloads are the two
  constructors of `Outbound`.
* `random.choice(lines)` is modelled by an explicit index into the list:
  the handler takes a `Fin lines.length`, covering every possible draw.
* Python `member or ctx.author` coalesces a falsy (`None`) argument; a
  `discord.Member` object is always truthy, so on `Option User` this is
  exactly `Option.getD`.
-/

structure User where
  id : Nat
  name : String
deriving DecidableEq, Repr

/-- The platform mention token of a user: `<@id>`. -/
def User.mention (u : User) : String :=
  "<@" ++ toString u.id ++ ">"

/-- The command invocation context; `author` is the invoking user. -/
structure Context where
  author : User
deriving DecidableEq, Repr

/-- One `add_field` entry of an embed: keyword arguments
`name=`, `value=`, `inline=` of `discord.Embed.add_field`. -/
structure EmbedField where
  name : String
  value : String
  inl : Bool
deriving DecidableEq, Repr

/-- The `discord.Embed` display payload: title, description, color,
ordered fields, footer. -/
structure Embed where
  title : Option String := none
  description : Option String := none
  color : Option Nat := none
  fields : List EmbedField := []
  footer : Option String := none
deriving DecidableEq, Repr

/-- The `embed.add_field(name=..., value=..., inline=...)` method: appends
one field to the embed's field list. -/
def Embed.add_field (e : Embed) (name value : String) (inl : Bool) : Embed :=
  { e with fields := e.fields ++ [⟨name, value, inl⟩] }

/-- The `embed.set_footer(text=...)` method. -/
def Embed.set_footer (e : Embed) (text : String) : Embed :=
  { e with footer := some text }

/-- An outbound `ctx.send(...)`: either plain text or an embed payload. -/
inductive Outbound where
  | text (s : String)
  | embed (e : Embed)
deriving DecidableEq, Repr

/-- The local list `lines` of the `wisdom` handler, in source order. -/
def wisdomLines : List String :=
  [ "Even void can return something.",
    "All data is a spell waiting to be cast.",
    "Modules are fragments of the soul, split but eternal.",
    "Syntax isn\x27t written — it\x27s conjured.",
    "The REPL is your cauldron; stir it wisely." ]

/-- The `wisdom` handler: sends `"🔮 "` followed by `random.choice(lines)`.
The random draw is the explicit index `i`. -/
def wisdom (_ctx : Context) (i : Fin wisdomLines.length) : List Outbound :=
  [Outbound.text ("🔮 " ++ wisdomLines.get i)]

/-- The declared default of the `member` parameter of `welcome`
(`member: discord.Member = None`). -/
def welcomeMemberDefault : Option User := none

/-- The `welcome` handler: `member = member or ctx.author`, then sends one
embed with the fixed title, the description interpolating the target's
mention, the fixed color `0x9e91ff` and the fixed footer. -/
def welcome (ctx : Context) (member : Option User := welcomeMemberDefault) :
    List Outbound :=
  let m := member.getD ctx.author
  let embed : Embed :=
    { title := some "🌙 A new star rises...",
      description := some ("Welcome to **Lunaria**, " ++ m.mention ++
        "!\nLet the code guide you through the void."),
      color := some 0x9e91ff }
  let embed := embed.set_footer "Nyra, Guardian of the Grimoire"
  [Outbound.embed embed]

/-- The `help` handler: sends one embed with the fixed title and color, two
`add_field` entries in source order, and the fixed footer. -/
def help (_ctx : Context) : List Outbound :=
  let embed : Embed :=
    { title := some "📜 Nyra\x27s Grimoire of Commands", color := some 0xaab6ff }
  let embed := embed.add_field "lunaria!wisdom"
    "Receive a cryptic line of code-sorcery." false
  let embed := embed.add_field "lunaria!welcome [@user]"
    "Manually invoke the welcome ritual." false
  let embed := embed.set_footer "More spells soon to be discovered..."
  [Outbound.embed embed]

/-- The three handlers registered by the `@bot.command()` decorators. -/
inductive Handler where
  | wisdomH
  | welcomeH
  | helpH
deriving DecidableEq, Repr

/-- The command table built at module load: each `@bot.command()` registers
the decorated function under its own name, in source order. -/
def commandTable : List (String × Handler) :=
  [("wisdom", Handler.wisdomH), ("welcome", Handler.welcomeH),
   ("help", Handler.helpH)]

/-- The configured command prefix string (`command_prefix="lunaria!"`). -/
def commandStart : String := "lunaria!"

/-- The constructor argument `help_command=None`: the library's default
help command is disabled, freeing the name `help`. -/
def helpCommandDisabled : Bool := true

/-- The command token of an inbound message: what follows the prefix, up
to the first space. -/
def commandToken (msg : String) : String :=
  ⟨(msg.data.drop commandStart.data.length).takeWhile (fun c => c != ' ')⟩

/-- Modelled from the spec: the dispatcher lives in the external
`discord.ext.commands` library, not under `src/`. Per the spec, "given an
inbound event containing a command name and optional arguments, look up a
handler by exact name match; if found, invoke it; if not found, no defined
behavior", and "command matching is exact-string and prefix-qualified". -/
def dispatch (msg : String) : Option Handler :=
  if commandStart.data.isPrefixOf msg.data then
    (commandTable.find? (fun p => p.1 == commandToken msg)).map Prod.snd
  else none

/-- Modelled from the spec: the external client's run entry point requires
a single secret credential; per spec section 7, a missing credential
"causes the process to fail at startup with whatever diagnostic the
external library emits", before any handler can run. On success the
process would go on to serve handler invocations (a list of outbound
messages); on a missing credential it stops with a startup error. -/
def clientRun (credential : Option String) (served : List Outbound) :
    Except String (List Outbound) :=
  match credential with
  | none => Except.error "missing required credential"
  | some _ => Except.ok served

/-- The program entry: the source calls `bot.run()` with no token
argument. -/
def mainProgram (served : List Outbound) : Except String (List Outbound) :=
  clientRun none served

/-- C1: every invocation of `wisdom` sends exactly the glyph "🔮 "
followed by one element of the fixed five-string list; the list has five
elements, and every element is reachable by some draw. -/
theorem wisdom_spec (ctx : Context) (i : Fin wisdomLines.length) :
    wisdom ctx i ∈ wisdomLines.map (fun l => [Outbound.text ("🔮 " ++ l)]) ∧
    wisdomLines.length = 5 ∧
    ∀ l ∈ wisdomLines, ∃ j : Fin wisdomLines.length,
      wisdom ctx j = [Outbound.text ("🔮 " ++ l)] := by
  refine ⟨?_, rfl, ?_⟩
  · exact List.mem_map.mpr ⟨wisdomLines.get i, wisdomLines.get_mem i.1 i.2, rfl⟩
  · intro l hl
    obtain ⟨n, hn⟩ := List.get_of_mem hl
    rw [List.get_eq_getElem] at hn
    exact ⟨n, by simp [wisdom, hn]⟩

/-- C1 witness: concrete evaluation of the coverage part of `wisdom_spec`
at the first line. -/
theorem wisdom_spec_wit :
    ∃ j : Fin wisdomLines.length, wisdom ⟨⟨0, "u"⟩⟩ j =
      [Outbound.text ("🔮 " ++ "Even void can return something.")] :=
  (wisdom_spec ⟨⟨0, "u"⟩⟩ ⟨0, by decide⟩).2.2
    "Even void can return something." (by decide)

/-- C2: with an explicit target, the sent embed's description contains the
target's mention string, and the output does not depend on the invoking
context at all — so the invoker's mention is never substituted for the
target's. -/
theorem welcome_explicit_target (ctx ctx2 : Context) (m : User) :
    (∃ e, welcome ctx (some m) = [Outbound.embed e] ∧
      ∃ a b, e.description = some (a ++ m.mention ++ b)) ∧
    welcome ctx (some m) = welcome ctx2 (some m) := by
  exact ⟨⟨_, rfl, "Welcome to **Lunaria**, ",
    "!\nLet the code guide you through the void.", rfl⟩, rfl⟩

/-- C3: with no target argument, the sent embed's description contains the
invoking user's mention string. -/
theorem welcome_defaults_to_author (ctx : Context) :
    ∃ e, welcome ctx none = [Outbound.embed e] ∧
      ∃ a b, e.description = some (a ++ ctx.author.mention ++ b) := by
  exact ⟨_, rfl, "Welcome to **Lunaria**, ",
    "!\nLet the code guide you through the void.", rfl⟩

/-- C4: the `help` embed has exactly two fields, named `lunaria!wisdom`
and `lunaria!welcome [@user]`, in that order. -/
theorem help_two_fields (ctx : Context) :
    ∃ e, help ctx = [Outbound.embed e] ∧ e.fields.length = 2 ∧
      e.fields.map EmbedField.name =
        ["lunaria!wisdom", "lunaria!welcome [@user]"] := by
  exact ⟨_, rfl, rfl, rfl⟩

/-- C5: the three registered command names are pairwise distinct, the
library's default help command is disabled, and the table maps each name
to exactly one handler. -/
theorem command_names_unique :
    commandTable.map Prod.fst = ["wisdom", "welcome", "help"] ∧
    (commandTable.map Prod.fst).Nodup ∧
    helpCommandDisabled = true ∧
    ∀ n h₁ h₂, (n, h₁) ∈ commandTable → (n, h₂) ∈ commandTable →
      h₁ = h₂ := by
  refine ⟨rfl, by decide, rfl, ?_⟩
  intro n h₁ h₂ hm₁ hm₂
  simp only [commandTable, List.mem_cons, List.not_mem_nil, or_false,
    Prod.mk.injEq] at hm₁ hm₂
  rcases hm₁ with ⟨rfl, rfl⟩ | ⟨rfl, rfl⟩ | ⟨rfl, rfl⟩ <;>
    rcases hm₂ with ⟨h, rfl⟩ | ⟨h, rfl⟩ | ⟨h, rfl⟩ <;> simp_all

/-- C5 witness: concrete instantiation of the uniqueness part at the name
`wisdom`. -/
theorem command_names_unique_wit :
    ("wisdom", Handler.wisdomH) ∈ commandTable ∧
    Handler.wisdomH = Handler.wisdomH :=
  ⟨by decide, command_names_unique.2.2.2 "wisdom" Handler.wisdomH
    Handler.wisdomH (by decide) (by decide)⟩

/-- C6: a handler is dispatched only when the message's command token
equals a registered name exactly; the three exact commands dispatch to
their handlers, and `lunaria!wisdomX` dispatches no handler. -/
theorem dispatch_exact_match :
    (∀ msg h, dispatch msg = some h → (commandToken msg, h) ∈ commandTable) ∧
    dispatch ("lunaria!" ++ "wisdom") = some Handler.wisdomH ∧
    dispatch ("lunaria!" ++ "welcome") = some Handler.welcomeH ∧
    dispatch ("lunaria!" ++ "help") = some Handler.helpH ∧
    dispatch "lunaria!wisdomX" = none := by
  refine ⟨?_, by decide, by decide, by decide, by decide⟩
  intro msg h hd
  unfold dispatch at hd
  split at hd
  · rw [Option.map_eq_some'] at hd
    obtain ⟨p, hfind, hsnd⟩ := hd
    have hmem := List.mem_of_find?_eq_some hfind
    have hp := List.find?_some hfind
    obtain ⟨a, b⟩ := p
    simp only [beq_iff_eq] at hp
    subst hsnd
    rw [← hp]
    exact hmem
  · exact absurd hd (by simp)

/-- C6 witness: concrete evaluation of the only-if part at the exact
message `lunaria!wisdom`. -/
theorem dispatch_exact_match_wit :
    (commandToken "lunaria!wisdom", Handler.wisdomH) ∈ commandTable :=
  dispatch_exact_match.1 "lunaria!wisdom" Handler.wisdomH (by decide)

/-- C7: `wisdom` and `help` always reach exactly one outbound send and
emit nothing else: every invocation produces a one-element effect list
(text for `wisdom`, an embed for `help`), with no error outcome in their
types. -/
theorem wisdom_help_single_send (ctx : Context) (i : Fin wisdomLines.length) :
    (∃ s, wisdom ctx i = [Outbound.text s]) ∧
    (∃ e, help ctx = [Outbound.embed e]) :=
  ⟨⟨_, rfl⟩, ⟨_, rfl⟩⟩

/-- C8: started with no credential (as `bot.run()` does), the program
fails at startup with an error and never reaches a successful serving
state, so no handler can run. -/
theorem startup_without_credential_fails_fast (served : List Outbound) :
    (∃ e, mainProgram served = Except.error e) ∧
    ∀ out, mainProgram served ≠ Except.ok out := by
  refine ⟨⟨_, rfl⟩, ?_⟩
  intro out h
  simp [mainProgram, clientRun] at h

/-- C8 witness: concrete evaluation of the startup failure with an empty
serving trace. -/
theorem startup_without_credential_fails_fast_wit :
    ∃ e, mainProgram [] = Except.error e :=
  (startup_without_credential_fails_fast []).1

/-- C10: `help` is deterministic and context-independent: any two
invocations produce the same single embed, whose title, color, field list
and footer are the fixed literals. -/
theorem help_deterministic (c1 c2 : Context) :
    help c1 = help c2 ∧
    ∃ e, help c1 = [Outbound.embed e] ∧
      e.title = some "📜 Nyra\x27s Grimoire of Commands" ∧
      e.color = some 0xaab6ff ∧
      e.fields =
        [⟨"lunaria!wisdom", "Receive a cryptic line of code-sorcery.", false⟩,
         ⟨"lunaria!welcome [@user]", "Manually invoke the welcome ritual.",
           false⟩] ∧
      e.footer = some "More spells soon to be discovered..." := by
  exact ⟨rfl, _, rfl, rfl, rfl, rfl, rfl⟩

/-- C9: passing `None` explicitly is identical to omitting the argument
(the declared default is `None`), the coalescing step rebinds the target
to the invoking user, and the description interpolates that user's
mention. -/
theorem welcome_none_eq_absent (ctx : Context) :
    welcome ctx none = welcome ctx welcomeMemberDefault ∧
    welcome ctx none = welcome ctx (some ctx.author) ∧
    ∃ e, welcome ctx none = [Outbound.embed e] ∧
      ∃ a b, e.description = some (a ++ ctx.author.mention ++ b) := by
  exact ⟨rfl, rfl, _, rfl, "Welcome to **Lunaria**, ",
    "!\nLet the code guide you through the void.", rfl⟩
